import Mathlib

/-!
Shallow embedding of the capture-streaming-aggregation pipeline of
`src/frontend/js/camera.js` (class `CameraManager`), together with proofs of
the behavioural properties stated in the specification.

Modelling conventions:
* A stored classification event (`this.detectedEmotions` entry) is an `Event`
  with the raw label string, the confidence (a rational, standing for the JS
  number; no float rounding is exercised by any property here), and a
  timestamp split into its calendar day (`toDateString` bucket) and a
  within-day tick (the rest of `toISOString`).
* The mutable fields of `CameraManager` that the claims concern are
  `this.stream` (device held or not), `this.isStreaming`, and whether
  `this.ws` exists with `readyState === OPEN`; they form `CamState`.
* Methods become pure functions from state (plus the environment's response,
  e.g. whether `getUserMedia` resolves) to state plus observable effects.
-/

namespace MindWell

/-- An entry of `this.detectedEmotions` as pushed by `storeEmotion`:
`{ emotion, confidence, timestamp }`, the timestamp split into calendar day
and within-day tick. -/
structure Event where
  emotion : String
  confidence : ℚ
  day : Nat
  tick : Nat
deriving DecidableEq

/-- The closed emotion-label set of the UI lookup tables (`iconMap` /
`emojiMap` in camera.js). -/
def closedEmotionLabels : List String :=
  ["Happy", "Sad", "Angry", "Fear", "Surprise", "Neutral", "Disgust"]

/-- The buffer mutation of `storeEmotion`: push the new entry, then
`shift()` (drop the oldest, at the head) when the length exceeds 100. -/
def storeEmotion (buf : List Event) (e : Event) : List Event :=
  if (buf ++ [e]).length > 100 then (buf ++ [e]).drop 1 else buf ++ [e]

/-- Recording a whole sequence of inbound events into an initially empty
buffer, one `storeEmotion` call per event. -/
def recordAll (es : List Event) : List Event :=
  es.foldl storeEmotion []

/-- The entries a `storeEmotion` call removes from the buffer: the single
`shift()` victim (the head of the pushed array) when the push overflows the
100-entry bound, nothing otherwise. -/
def evicted (buf : List Event) (e : Event) : List Event :=
  if (buf ++ [e]).length > 100 then (buf ++ [e]).take 1 else []

/-- One step of the tally loop of `updateTodayEmotions`:
`emotionCounts[e.emotion] = (emotionCounts[e.emotion] || 0) + 1` on a JS
object modelled as an association list with unique keys in insertion order. -/
def bump : List (String × Nat) → String → List (String × Nat)
  | [], k => [(k, 1)]
  | (k0, n) :: rest, k =>
      if k0 = k then (k0, n + 1) :: rest else (k0, n) :: bump rest k

/-- The tally of `updateTodayEmotions` over a list of events. -/
def emotionCounts (evs : List Event) : List (String × Nat) :=
  evs.foldl (fun m e => bump m e.emotion) []

/-- `updateTodayEmotions`: filter the buffer to entries whose timestamp falls
on `today`, then tally by raw label. -/
def updateTodayEmotions (buf : List Event) (today : Nat) : List (String × Nat) :=
  emotionCounts (buf.filter (fun e => e.day == today))

/-- The count recorded under key `k` (`0` when the key is absent, matching
`emotionCounts[k] || 0`). -/
def countOf (m : List (String × Nat)) (k : String) : Nat :=
  (m.lookup k).getD 0

/-- The total of all per-label counts (what summing the rendered
`emotion-count` spans would give). -/
def totalCount (m : List (String × Nat)) : Nat :=
  (m.map Prod.snd).sum

/- ### Buffer lemmas -/

theorem storeEmotion_of_lt (buf : List Event) (e : Event)
    (h : buf.length < 100) : storeEmotion buf e = buf ++ [e] := by
  have hc : ¬ ((buf ++ [e]).length > 100) := by
    simp only [List.length_append, List.length_singleton]
    omega
  unfold storeEmotion
  rw [if_neg hc]

theorem storeEmotion_of_ge (buf : List Event) (e : Event)
    (h : 100 ≤ buf.length) : storeEmotion buf e = (buf ++ [e]).drop 1 := by
  have hc : (buf ++ [e]).length > 100 := by
    simp only [List.length_append, List.length_singleton]
    omega
  unfold storeEmotion
  rw [if_pos hc]

theorem storeEmotion_lastHundred (l : List Event) (e : Event) :
    storeEmotion (l.drop (l.length - 100)) e
      = (l ++ [e]).drop (l.length + 1 - 100) := by
  by_cases h : l.length < 100
  · have h0 : l.length - 100 = 0 := by omega
    have h1 : l.length + 1 - 100 = 0 := by omega
    rw [h0, h1, List.drop_zero, List.drop_zero,
      storeEmotion_of_lt l e h]
  · push_neg at h
    have hlen : (l.drop (l.length - 100)).length = 100 := by
      rw [List.length_drop]; omega
    have h100 : 100 ≤ (l.drop (l.length - 100)).length := le_of_eq hlen.symm
    have h1 : 1 ≤ (l.drop (l.length - 100)).length := by
      rw [hlen]
      omega
    calc storeEmotion (l.drop (l.length - 100)) e
        = ((l.drop (l.length - 100)) ++ [e]).drop 1 :=
          storeEmotion_of_ge _ e h100
      _ = (l.drop (l.length - 100)).drop 1 ++ [e] :=
          List.drop_append_of_le_length h1
      _ = l.drop ((l.length - 100) + 1) ++ [e] := by rw [List.drop_drop]
      _ = l.drop (l.length + 1 - 100) ++ [e] := by
          have harith : (l.length - 100) + 1 = l.length + 1 - 100 := by omega
          rw [harith]
      _ = (l ++ [e]).drop (l.length + 1 - 100) :=
          (List.drop_append_of_le_length (by omega)).symm

theorem recordAll_append (es : List Event) (e : Event) :
    recordAll (es ++ [e]) = storeEmotion (recordAll es) e := by
  simp [recordAll, List.foldl_append]

theorem recordAll_eq_lastHundred (es : List Event) :
    recordAll es = es.drop (es.length - 100) := by
  induction es using List.reverseRecOn with
  | nil => rfl
  | append_singleton l e ih =>
      rw [recordAll_append, ih, storeEmotion_lastHundred]
      simp only [List.length_append, List.length_singleton]

theorem recordAll_length_le (es : List Event) :
    (recordAll es).length ≤ 100 := by
  rw [recordAll_eq_lastHundred, List.length_drop]
  omega

/-- C1: after any sequence of `record()`/`storeEmotion` calls the buffer has
length at most 100 and equals the last 100 recorded events in arrival order
(FIFO eviction of the oldest on overflow); in particular a 105-event sequence
leaves exactly events #6 through #105 (`drop (105 - 100) = drop 5`). -/
theorem recordAll_fifo (es : List Event) :
    (recordAll es).length ≤ 100 ∧
    recordAll es = es.drop (es.length - 100) :=
  ⟨recordAll_length_le es, recordAll_eq_lastHundred es⟩

/- ### Tally lemmas -/

theorem bump_totalCount (m : List (String × Nat)) (k : String) :
    totalCount (bump m k) = totalCount m + 1 := by
  induction m with
  | nil => simp [bump, totalCount]
  | cons p rest ih =>
      obtain ⟨k0, n⟩ := p
      by_cases h : k0 = k
      · simp [bump, h, totalCount]
        omega
      · simp only [bump, h, if_false, totalCount, List.map_cons, List.sum_cons]
        simp only [totalCount] at ih
        omega

theorem bump_countOf_self (m : List (String × Nat)) (k : String) :
    countOf (bump m k) k = countOf m k + 1 := by
  induction m with
  | nil => simp [bump, countOf, List.lookup]
  | cons p rest ih =>
      obtain ⟨k0, n⟩ := p
      by_cases h : k0 = k
      · subst h
        simp [bump, countOf, List.lookup]
      · have hb : (k == k0) = false := beq_eq_false_iff_ne.mpr (Ne.symm h)
        simp only [bump, h, if_false, countOf, List.lookup, hb]
        exact ih

theorem foldl_bump_totalCount (evs : List Event) (m : List (String × Nat)) :
    totalCount (evs.foldl (fun a e => bump a e.emotion) m)
      = totalCount m + evs.length := by
  induction evs generalizing m with
  | nil => simp
  | cons e rest ih =>
      simp only [List.foldl_cons, List.length_cons, ih, bump_totalCount]
      omega

theorem emotionCounts_totalCount (evs : List Event) :
    totalCount (emotionCounts evs) = evs.length := by
  have h := foldl_bump_totalCount evs []
  simpa [emotionCounts, totalCount] using h

theorem emotionCounts_append (evs : List Event) (e : Event) :
    emotionCounts (evs ++ [e]) = bump (emotionCounts evs) e.emotion := by
  simp [emotionCounts, List.foldl_append]

theorem filter_append_day (buf : List Event) (e : Event) :
    (buf ++ [e]).filter (fun x => x.day == e.day)
      = buf.filter (fun x => x.day == e.day) ++ [e] := by
  simp [List.filter_append]

theorem updateTodayEmotions_store_lt (buf : List Event) (e : Event)
    (h : buf.length < 100) :
    updateTodayEmotions (storeEmotion buf e) e.day
      = bump (updateTodayEmotions buf e.day) e.emotion := by
  rw [storeEmotion_of_lt buf e h]
  unfold updateTodayEmotions
  rw [filter_append_day, emotionCounts_append]

theorem bump_countOf_ne (m : List (String × Nat)) (k k2 : String)
    (h : k ≠ k2) : countOf (bump m k) k2 = countOf m k2 := by
  have hb : (k2 == k) = false := beq_eq_false_iff_ne.mpr (Ne.symm h)
  induction m with
  | nil => simp [bump, countOf, List.lookup, hb]
  | cons p rest ih =>
      obtain ⟨k0, n⟩ := p
      by_cases h0 : k0 = k
      · subst h0
        simp [bump, countOf, List.lookup, hb]
      · simp only [bump, h0, if_false]
        by_cases h2 : k2 = k0
        · subst h2
          simp [countOf, List.lookup]
        · have hb2 : (k2 == k0) = false := beq_eq_false_iff_ne.mpr h2
          simp only [countOf, List.lookup, hb2]
          exact ih

theorem foldl_bump_countOf (evs : List Event) (m : List (String × Nat))
    (k : String) :
    countOf (evs.foldl (fun a e => bump a e.emotion) m) k
      = countOf m k + (evs.filter (fun x => x.emotion == k)).length := by
  induction evs generalizing m with
  | nil => simp
  | cons e rest ih =>
      simp only [List.foldl_cons]
      rw [ih]
      by_cases he : e.emotion = k
      · rw [he, bump_countOf_self]
        have hbe : (e.emotion == k) = true := by simp [he]
        simp only [List.filter_cons, hbe, if_true, List.length_cons]
        omega
      · rw [bump_countOf_ne m e.emotion k he]
        have hbe : (e.emotion == k) = false := beq_eq_false_iff_ne.mpr he
        simp [List.filter_cons, hbe]

theorem countOf_updateTodayEmotions (b2 : List Event) (d : Nat)
    (k : String) :
    countOf (updateTodayEmotions b2 d) k
      = ((b2.filter (fun x => x.day == d)).filter
          (fun x => x.emotion == k)).length := by
  have h := foldl_bump_countOf (b2.filter (fun x => x.day == d)) [] k
  simpa [updateTodayEmotions, emotionCounts, countOf] using h

theorem self_mem_storeEmotion (buf : List Event) (e : Event) :
    e ∈ storeEmotion buf e := by
  by_cases h : buf.length < 100
  · rw [storeEmotion_of_lt buf e h]
    simp
  · push_neg at h
    rw [storeEmotion_of_ge buf e h, List.drop_append_of_le_length (by omega)]
    simp

theorem updateTodayEmotions_store (buf : List Event) (e : Event)
    (h : ∀ x ∈ evicted buf e, x.day ≠ e.day) :
    updateTodayEmotions (storeEmotion buf e) e.day
      = bump (updateTodayEmotions buf e.day) e.emotion := by
  by_cases hlt : buf.length < 100
  · exact updateTodayEmotions_store_lt buf e hlt
  · push_neg at hlt
    cases buf with
    | nil => exact absurd hlt (by simp)
    | cons b0 rest =>
        have hover : ((b0 :: rest) ++ [e]).length > 100 := by
          simp only [List.length_append, List.length_cons,
            List.length_singleton]
          simp only [List.length_cons] at hlt
          omega
        have hb0mem : b0 ∈ evicted (b0 :: rest) e := by
          unfold evicted
          rw [if_pos hover]
          simp
        have hbday : (b0.day == e.day) = false :=
          beq_eq_false_iff_ne.mpr (h b0 hb0mem)
        have hstore : storeEmotion (b0 :: rest) e = rest ++ [e] := by
          rw [storeEmotion_of_ge _ e hlt]
          simp
        have hfil : (b0 :: rest).filter (fun x => x.day == e.day)
            = rest.filter (fun x => x.day == e.day) := by
          simp [List.filter_cons, hbday]
        rw [hstore]
        unfold updateTodayEmotions
        rw [filter_append_day rest e, emotionCounts_append, hfil]

/-- An inbound event whose label is outside the closed `EmotionLabel` set,
as in the spec scenario (`emotion: "Bored"`, confidence 0.9). -/
def boredEvent : Event := ⟨"Bored", 9 / 10, 0, 0⟩

/-- A recognized-label event on the same calendar day (day 0), used to fill
the buffer to capacity in the eviction part of the C2 counterexample. -/
def sadEvent : Event := ⟨"Sad", 1 / 2, 0, 1⟩

/-- C2 counterexample: (i) recording a `"Bored"` event leaves the reserved
`"unknown"` bucket absent from the day's counts — the event is tallied under
the raw key `"Bored"` instead, so the fallback-bucket clause fails; and
(ii) recording an event into a buffer already holding 100 same-day events
leaves the total daily count at 100 instead of incrementing it to 101 — the
evicted same-day entry cancels the increment, so the always-increments-by-1
clause fails as well. -/
theorem unknownBucket_not_used_cex :
    "Bored" ∉ closedEmotionLabels ∧
    (updateTodayEmotions (storeEmotion [] boredEvent) 0).lookup "unknown"
      = none ∧
    (updateTodayEmotions (storeEmotion [] boredEvent) 0).lookup "Bored"
      = some 1 ∧
    totalCount (updateTodayEmotions (List.replicate 100 sadEvent) 0) = 100 ∧
    totalCount (updateTodayEmotions
        (storeEmotion (List.replicate 100 sadEvent) boredEvent) 0) = 100 := by
  refine ⟨by decide, rfl, rfl, by decide, by decide⟩

/-- C2 (amended): every inbound event — label outside the closed set
included — is handled without any exception (the tally is total) and is
counted under the bucket keyed by its raw label string, never a reserved
`"unknown"` bucket: unconditionally, that bucket holds exactly the same-day
occurrences of the raw label in the buffer, so it gains the just-stored
event; and whenever the call evicts no same-day entry, the raw-label bucket
and the total daily count each increment by exactly 1. -/
theorem record_unrecognized_raw_label_bucket (buf : List Event) (e : Event) :
    countOf (updateTodayEmotions (storeEmotion buf e) e.day) e.emotion
      = (((storeEmotion buf e).filter (fun x => x.day == e.day)).filter
          (fun x => x.emotion == e.emotion)).length ∧
    1 ≤ countOf (updateTodayEmotions (storeEmotion buf e) e.day) e.emotion ∧
    ((∀ x ∈ evicted buf e, x.day ≠ e.day) →
      countOf (updateTodayEmotions (storeEmotion buf e) e.day) e.emotion
        = countOf (updateTodayEmotions buf e.day) e.emotion + 1 ∧
      totalCount (updateTodayEmotions (storeEmotion buf e) e.day)
        = totalCount (updateTodayEmotions buf e.day) + 1) := by
  refine ⟨countOf_updateTodayEmotions _ _ _, ?_, fun h => ?_⟩
  · rw [countOf_updateTodayEmotions]
    have hmem : e ∈ ((storeEmotion buf e).filter
        (fun x => x.day == e.day)).filter (fun x => x.emotion == e.emotion) :=
      List.mem_filter.mpr
        ⟨List.mem_filter.mpr ⟨self_mem_storeEmotion buf e, by simp⟩, by simp⟩
    exact List.length_pos.mpr (List.ne_nil_of_mem hmem)
  · rw [updateTodayEmotions_store buf e h]
    exact ⟨bump_countOf_self _ _, bump_totalCount _ _⟩

theorem record_unrecognized_raw_label_bucket_witness :
    (countOf (updateTodayEmotions (storeEmotion [] boredEvent)
          boredEvent.day) boredEvent.emotion
      = (((storeEmotion [] boredEvent).filter
            (fun x => x.day == boredEvent.day)).filter
          (fun x => x.emotion == boredEvent.emotion)).length) ∧
    1 ≤ countOf (updateTodayEmotions (storeEmotion [] boredEvent)
        boredEvent.day) boredEvent.emotion ∧
    (countOf (updateTodayEmotions (storeEmotion [] boredEvent)
          boredEvent.day) boredEvent.emotion
        = countOf (updateTodayEmotions [] boredEvent.day) boredEvent.emotion
            + 1 ∧
      totalCount (updateTodayEmotions (storeEmotion [] boredEvent)
          boredEvent.day)
        = totalCount (updateTodayEmotions [] boredEvent.day) + 1) :=
  ⟨(record_unrecognized_raw_label_bucket [] boredEvent).1,
    (record_unrecognized_raw_label_bucket [] boredEvent).2.1,
    (record_unrecognized_raw_label_bucket [] boredEvent).2.2 (by decide)⟩

/-- An inbound event carrying a confidence outside `[0, 1]`. -/
def overConfEvent : Event := ⟨"Happy", 3 / 2, 0, 0⟩

/-- C7 counterexample: an event with confidence `3/2 > 1` is stored in the
buffer with its confidence verbatim — neither clamped into `[0, 1]` nor
rejected — so the claim's clamp-or-reject clause fails. -/
theorem confidence_unclamped_cex :
    (1 : ℚ) < overConfEvent.confidence ∧
    storeEmotion [] overConfEvent = [overConfEvent] ∧
    (storeEmotion [] overConfEvent).map Event.confidence = [(3 : ℚ) / 2] := by
  refine ⟨by norm_num [overConfEvent], rfl, rfl⟩

/-- C7 (amended): `storeEmotion` stores every event — its out-of-range
confidence included — verbatim as the newest buffer entry (no clamping and no
rejection), and the confidence never enters the count aggregation: the sum of
the per-label counts for a day equals the number of buffer entries whose
timestamp falls on that day, regardless of the confidences involved. -/
theorem storeEmotion_confidence_verbatim (buf : List Event) (e : Event)
    (today : Nat) :
    (storeEmotion buf e).getLast? = some e ∧
    totalCount (updateTodayEmotions buf today)
      = (buf.filter (fun x => x.day == today)).length := by
  constructor
  · by_cases h : buf.length < 100
    · rw [storeEmotion_of_lt buf e h, List.getLast?_concat]
    · push_neg at h
      rw [storeEmotion_of_ge buf e h,
        List.drop_append_of_le_length (by omega), List.getLast?_concat]
  · simpa [updateTodayEmotions] using
      emotionCounts_totalCount (buf.filter (fun x => x.day == today))

/-- C10: after any sequence of records, the current day's counts are
recomputed from the bounded buffer alone — they coincide with the counts of
the last-100 suffix of the event sequence, their total equals the number of
same-day entries in the buffer, and that total never exceeds 100; an evicted
event therefore no longer contributes even if it was recorded the same day. -/
theorem todayCounts_from_bounded_buffer (es : List Event) (today : Nat) :
    totalCount (updateTodayEmotions (recordAll es) today)
        = ((recordAll es).filter (fun e => e.day == today)).length ∧
    totalCount (updateTodayEmotions (recordAll es) today) ≤ 100 ∧
    updateTodayEmotions (recordAll es) today
        = updateTodayEmotions (es.drop (es.length - 100)) today := by
  have hsum : totalCount (updateTodayEmotions (recordAll es) today)
      = ((recordAll es).filter (fun e => e.day == today)).length := by
    simpa [updateTodayEmotions] using
      emotionCounts_totalCount ((recordAll es).filter (fun e => e.day == today))
  refine ⟨hsum, ?_, by rw [recordAll_eq_lastHundred]⟩
  rw [hsum]
  calc ((recordAll es).filter (fun e => e.day == today)).length
      ≤ (recordAll es).length := List.length_filter_le _ _
    _ ≤ 100 := recordAll_length_le es

/- ### Controller state machine -/

/-- The controller-relevant mutable fields of `CameraManager`:
`stream` is `this.stream !== null` (capture device held), `isStreaming` is
`this.isStreaming`, and `wsOpen` is `this.ws` existing with
`readyState === WebSocket.OPEN`. -/
structure CamState where
  stream : Bool
  isStreaming : Bool
  wsOpen : Bool
deriving DecidableEq

/-- Result of one invocation of the `sendFrame` closure of
`startEmotionDetection`: whether a frame message was sent on the channel and
whether `setTimeout(sendFrame, 100)` was invoked to schedule the next tick. -/
structure TickResult where
  sent : Bool
  rescheduled : Bool
deriving DecidableEq

/-- One tick of the periodic send loop. The guard
`!this.isStreaming || !this.ws || this.ws.readyState !== WebSocket.OPEN`
returns early, before the send and before the `setTimeout` that would
reschedule the loop; only a tick that sends also reschedules. -/
def sendFrame (s : CamState) : TickResult :=
  if s.isStreaming && s.wsOpen then ⟨true, true⟩ else ⟨false, false⟩

/-- The `ws.onclose` event: the connection is no longer open (that is the
event itself); the installed handler body only logs, mutating nothing. -/
def wsOnClose (s : CamState) : CamState :=
  { s with wsOpen := false }

/-- The `ws.onerror` handler: it only logs, mutating nothing. -/
def wsOnError (s : CamState) : CamState :=
  s

/-- Result of `startCamera`: the new state plus the observable effects of the
call (whether `getUserMedia` was invoked, whether a send loop was started,
whether any channel open was attempted, whether a camera error notification
was shown). -/
structure StartResult where
  state : CamState
  deviceRequested : Bool
  loopStarted : Bool
  channelOpened : Bool
  errorReported : Bool
deriving DecidableEq

/-- `startCamera`, parametrised by whether the environment grants the
`getUserMedia` request. The method has no state guard: it always requests the
device; on success it overwrites `this.stream`, sets `isStreaming`, and calls
`startEmotionDetection`; on failure (`getUserMedia` rejects before the
assignment) it leaves all fields unchanged and calls `showCameraError`. It
never touches `this.ws`. -/
def startCamera (s : CamState) (acqSuccess : Bool) : StartResult :=
  if acqSuccess then
    { state := { s with stream := true, isStreaming := true },
      deviceRequested := true,
      loopStarted := true,
      channelOpened := false,
      errorReported := false }
  else
    { state := s,
      deviceRequested := true,
      loopStarted := false,
      channelOpened := false,
      errorReported := true }

/-- Result of `stopCamera`: the new state plus whether `track.stop()` was
invoked on the device and whether `ws.close()` was invoked on the channel. -/
structure StopResult where
  state : CamState
  deviceStopped : Bool
  channelCloseInvoked : Bool
deriving DecidableEq

/-- `stopCamera`: if `this.stream` is set, stop its tracks and clear
`stream`/`isStreaming`; then, if `this.ws` is open, call `ws.close()`
(unconditionally on streaming state — the channel is opened at construction,
independent of the camera). -/
def stopCamera (s : CamState) : StopResult :=
  let s1 : CamState :=
    if s.stream then { s with stream := false, isStreaming := false } else s
  let s2 : CamState :=
    if s1.wsOpen then { s1 with wsOpen := false } else s1
  { state := s2, deviceStopped := s.stream, channelCloseInvoked := s1.wsOpen }

/-- Outcome of the `fetch` submitting a mood entry in `saveMoodEntry`. -/
inductive SubmitOutcome where
  | ok
  | httpError
  | networkError
deriving DecidableEq

/-- Observable effects of one `saveMoodEntry` call. -/
structure SaveResult where
  attempts : Nat
  queuedForRetry : Bool
  userFailureNotified : Bool
  consoleLogged : Bool
  dashboardRefreshSignal : Bool
deriving DecidableEq

/-- `saveMoodEntry`, parametrised by the submission outcome and by whether
the dashboard section is currently open. It performs exactly one `fetch`; on
`response.ok` it refreshes an open dashboard; a non-ok response is silently
ignored; a rejected `fetch` is caught and only logged with `console.error`.
No queue is kept and no user-visible failure notification is produced. -/
def saveMoodEntry : SubmitOutcome → Bool → SaveResult
  | .ok, dash => ⟨1, false, false, false, dash⟩
  | .httpError, _ => ⟨1, false, false, false, false⟩
  | .networkError, _ => ⟨1, false, false, true, false⟩

/- ### Controller claims -/

/-- C3 counterexample: at a tick where the controller is still streaming but
the channel is not open, `sendFrame` neither sends nor reschedules — the
claim that the loop keeps self-rescheduling while the state remains Streaming
fails at this state. -/
theorem sendFrame_halts_on_closed_channel_cex :
    (⟨true, true, false⟩ : CamState).isStreaming = true ∧
    (⟨true, true, false⟩ : CamState).wsOpen = false ∧
    (sendFrame ⟨true, true, false⟩).sent = false ∧
    (sendFrame ⟨true, true, false⟩).rescheduled = false := by
  refine ⟨rfl, rfl, rfl, rfl⟩

/-- C3 (amended): a tick sends a frame, and reschedules the loop, exactly
when the state is Streaming and the channel is open. Hence a tick at which
the channel is not open sends nothing but also does not reschedule — the
periodic loop terminates at the first such tick instead of continuing — and a
tick occurring after a transition out of Streaming sends nothing and does not
reschedule either. -/
theorem sendFrame_tick_behaviour (s : CamState) :
    (sendFrame s).sent = (s.isStreaming && s.wsOpen) ∧
    (sendFrame s).rescheduled = (s.isStreaming && s.wsOpen) := by
  obtain ⟨dev, str, ws⟩ := s
  cases str <;> cases ws <;> exact ⟨rfl, rfl⟩

/-- C4 counterexample: the channel closing (or erroring) while streaming with
the device held leaves `isStreaming = true` and the device still held — the
controller neither transitions to an Error state nor releases the capture
device, so the claim fails at this state. -/
theorem channel_close_keeps_device_cex :
    (wsOnClose ⟨true, true, true⟩).stream = true ∧
    (wsOnClose ⟨true, true, true⟩).isStreaming = true ∧
    wsOnError ⟨true, true, true⟩ = ⟨true, true, true⟩ := by
  refine ⟨rfl, rfl, rfl⟩

/-- C4 (amended): when the channel errors or closes while streaming, the
handlers only log: the device remains held, `isStreaming` remains unchanged,
and no Error transition or device release occurs. A subsequent `startCamera`
still succeeds in acquiring a device (overwriting the held reference), but
the channel is never reopened, so every tick of the new send loop sends
nothing and the loop dies immediately. -/
theorem channel_failure_handlers_log_only (s : CamState) :
    (wsOnClose s).stream = s.stream ∧
    (wsOnClose s).isStreaming = s.isStreaming ∧
    wsOnError s = s ∧
    (startCamera (wsOnClose s) true).state.isStreaming = true ∧
    (startCamera (wsOnClose s) true).state.stream = true ∧
    sendFrame ((startCamera (wsOnClose s) true).state) = ⟨false, false⟩ := by
  refine ⟨rfl, rfl, rfl, rfl, rfl, rfl⟩

/-- C5 counterexample: calling `startCamera` while already streaming (device
held, channel open) still requests a second device acquisition and, when it
is granted, starts another send loop — the claim that the call is rejected
without side effects fails at this state. -/
theorem start_while_streaming_not_rejected_cex :
    (⟨true, true, true⟩ : CamState).isStreaming = true ∧
    (startCamera ⟨true, true, true⟩ true).deviceRequested = true ∧
    (startCamera ⟨true, true, true⟩ true).loopStarted = true := by
  refine ⟨rfl, rfl, rfl⟩

/-- C5 (amended): `startCamera` has no state guard: from every state —
already-Streaming included — it requests device acquisition, and whenever
acquisition succeeds it starts an additional send loop and overwrites the
stored stream reference with the newly acquired device. -/
theorem startCamera_unguarded (s : CamState) (acqSuccess : Bool) :
    (startCamera s acqSuccess).deviceRequested = true ∧
    (startCamera s acqSuccess).loopStarted = acqSuccess ∧
    (startCamera s true).state
      = { s with stream := true, isStreaming := true } := by
  cases acqSuccess <;> exact ⟨rfl, rfl, rfl⟩

/-- C6 counterexample: with the controller Idle (no device, not streaming)
but the channel open — the construction-time default, since the WebSocket is
opened in `init` — `stopCamera` invokes `ws.close()`, an operation on the
streaming channel, so the claim that stop from Idle touches neither device
nor channel fails at this state. -/
theorem stop_from_idle_closes_channel_cex :
    (⟨false, false, true⟩ : CamState).stream = false ∧
    (⟨false, false, true⟩ : CamState).isStreaming = false ∧
    (stopCamera ⟨false, false, true⟩).channelCloseInvoked = true := by
  refine ⟨rfl, rfl, rfl⟩

/-- C6 (amended): `stopCamera` on a controller holding no device performs no
device operation and leaves `stream`/`isStreaming` unchanged, but it invokes
`ws.close()` exactly when the channel is open; when the channel is not open
the call is a complete no-op, and a repeated `stopCamera` is always a no-op
(idempotence holds for the composition even though the first Idle call may
close the channel). -/
theorem stopCamera_idle_behaviour (s : CamState) (h : s.stream = false) :
    (stopCamera s).deviceStopped = false ∧
    (stopCamera s).state.stream = false ∧
    (stopCamera s).state.isStreaming = s.isStreaming ∧
    (stopCamera s).channelCloseInvoked = s.wsOpen ∧
    (s.wsOpen = false → (stopCamera s).state = s) ∧
    stopCamera ((stopCamera s).state)
      = ⟨(stopCamera s).state, false, false⟩ := by
  obtain ⟨dev, str, ws⟩ := s
  subst h
  cases str <;> cases ws
  · exact ⟨rfl, rfl, rfl, rfl, fun hw => rfl, rfl⟩
  · exact ⟨rfl, rfl, rfl, rfl, fun hw => Bool.noConfusion hw, rfl⟩
  · exact ⟨rfl, rfl, rfl, rfl, fun hw => rfl, rfl⟩
  · exact ⟨rfl, rfl, rfl, rfl, fun hw => Bool.noConfusion hw, rfl⟩

theorem stopCamera_idle_behaviour_witness :
    (⟨false, false, true⟩ : CamState).stream = false ∧
    ((stopCamera ⟨false, false, true⟩).deviceStopped = false ∧
      (stopCamera ⟨false, false, true⟩).state.stream = false ∧
      (stopCamera ⟨false, false, true⟩).state.isStreaming
        = (⟨false, false, true⟩ : CamState).isStreaming ∧
      (stopCamera ⟨false, false, true⟩).channelCloseInvoked
        = (⟨false, false, true⟩ : CamState).wsOpen ∧
      ((⟨false, false, true⟩ : CamState).wsOpen = false →
        (stopCamera ⟨false, false, true⟩).state = ⟨false, false, true⟩) ∧
      stopCamera ((stopCamera ⟨false, false, true⟩).state)
        = ⟨(stopCamera ⟨false, false, true⟩).state, false, false⟩) :=
  ⟨rfl, stopCamera_idle_behaviour ⟨false, false, true⟩ rfl⟩

/-- C8: when device acquisition fails, `startCamera` reports the
capture-unavailable condition (the `showCameraError` notification — the only
Error observable the class has), leaves the controller in its prior
non-streaming state, does not start the send loop, and performs no open (or
any other operation) on the streaming channel. -/
theorem startCamera_acquisition_failure (s : CamState) :
    (startCamera s false).errorReported = true ∧
    (startCamera s false).state = s ∧
    (startCamera s false).loopStarted = false ∧
    (startCamera s false).channelOpened = false :=
  ⟨rfl, rfl, rfl, rfl⟩

/-- C9 counterexample: when the mood-entry submission fails — whether the
`fetch` rejects or the response is non-ok — no user-visible failure
notification is raised (a rejection is only logged to the console), so the
claim's notification clause fails at these inputs. -/
theorem save_failure_not_notified_cex :
    (saveMoodEntry .networkError false).userFailureNotified = false ∧
    (saveMoodEntry .networkError false).attempts = 1 ∧
    (saveMoodEntry .networkError false).consoleLogged = true ∧
    (saveMoodEntry .httpError false).userFailureNotified = false := by
  refine ⟨rfl, rfl, rfl, rfl⟩

/-- C9 (amended): every mood-entry submission is attempted exactly once with
no queue and no retry, and on failure the entry is simply discarded — but no
user-visible failure notification is raised: a transport failure is only
logged to the console and a non-ok response is silently ignored. -/
theorem saveMoodEntry_single_attempt_silent (o : SubmitOutcome)
    (dash : Bool) :
    (saveMoodEntry o dash).attempts = 1 ∧
    (saveMoodEntry o dash).queuedForRetry = false ∧
    (saveMoodEntry o dash).userFailureNotified = false ∧
    ((saveMoodEntry o dash).consoleLogged = decide (o = .networkError)) := by
  cases o <;> exact ⟨rfl, rfl, rfl, rfl⟩

end MindWell
